import Mathlib

/-!
Shallow embedding of the `hanu` Slack-bot core
(`src/vendor/github.com/sbstjn/hanu/main.go`) and proofs about its
behaviour.  Pure Go functions become Lean functions; the stateful parts
(handshake receiver mutation, the keepalive goroutine, the receive loop)
become explicit state passing and traces of actions over an environment
script.  Parts of the `hanu` package that are not present under `src/`
(`message.go`, `command.go`, `conversation.go`) are modelled from the
specification and are marked as such in their doc comments.
-/

namespace Hanu

/-- The protocol frame data model, mirroring `Message` with the fields this
core inspects: `{id: uint64, type: string, text: string, channel: string,
user: string}` (`main.go` uses `msg.Type`, `msg.Text()`, `msg.User()`,
`msg.SetText`, and sends `Message{ID: count, Type: "ping"}`). -/
structure Message where
  id : Nat
  type : String
  text : String
  channel : String
  user : String
deriving Repr, DecidableEq, Inhabited

/-- Modelled from the spec: the leading mention token referencing `selfID`,
i.e. the service's `<@ID>` markup, as a character list. -/
def mentionOf (selfID : String) : List Char :=
  '<' :: '@' :: (selfID.data ++ ['>'])

theorem mentionOf_ne_nil (selfID : String) : mentionOf selfID ≠ [] := by
  simp [mentionOf]

theorem mentionOf_length_pos (selfID : String) : 0 < (mentionOf selfID).length := by
  simp [mentionOf]

/-- Modelled from the spec: whether a character list contains the given
needle as a contiguous sublist (used for mention detection). -/
def listContainsSub (needle : List Char) : List Char → Bool
  | [] => needle.isEmpty
  | c :: cs => needle.isPrefixOf (c :: cs) || listContainsSub needle cs

/-- Modelled from the spec: `IsDirectMessage()` is true iff the channel
identifier lies in the direct-message channel namespace (channel ids
starting with `'D'` per service convention). -/
def Message.isDirectMessage (m : Message) : Bool :=
  m.channel.data.head? == some 'D'

/-- Modelled from the spec: `IsRelevantFor(selfID)` is true iff the message
is a direct message, or its text contains a mention token referencing
`selfID`. -/
def Message.isRelevantFor (m : Message) (selfID : String) : Bool :=
  m.isDirectMessage || listContainsSub (mentionOf selfID) m.text.data

/-- Modelled from the spec: `StripMention(selfID)` removes the leading
mention token referencing `selfID` (together with the blank that separates
it from the rest of the text), idempotently: leading mention tokens are
stripped for as long as one is present. Core recursion on the character
list of the text. -/
def stripMentionCore (selfID : String) (cs : List Char) : List Char :=
  if (mentionOf selfID).isPrefixOf cs then
    stripMentionCore selfID ((cs.drop (mentionOf selfID).length).dropWhile (· = ' '))
  else
    cs
termination_by cs.length
decreasing_by
  rename_i h
  have hpre : mentionOf selfID <+: cs := by
    exact (List.isPrefixOf_iff_prefix).1 h
  have hle : (mentionOf selfID).length ≤ cs.length := hpre.length_le
  have hpos : 0 < (mentionOf selfID).length := mentionOf_length_pos selfID
  calc ((cs.drop (mentionOf selfID).length).dropWhile (· = ' ')).length
      ≤ (cs.drop (mentionOf selfID).length).length := (List.dropWhile_sublist _).length_le
    _ = cs.length - (mentionOf selfID).length := List.length_drop _ _
    _ < cs.length := Nat.sub_lt (Nat.lt_of_lt_of_le hpos hle) hpos

/-- Modelled from the spec: `StripMention(selfID)` on the message text. -/
def stripMention (selfID : String) (text : String) : String :=
  ⟨stripMentionCore selfID text.data⟩

theorem stripMentionCore_eq (selfID : String) (cs : List Char) :
    stripMentionCore selfID cs =
      if (mentionOf selfID).isPrefixOf cs then
        stripMentionCore selfID ((cs.drop (mentionOf selfID).length).dropWhile (· = ' '))
      else cs := by
  rw [stripMentionCore]

theorem strip_rest_length_lt (selfID : String) (cs : List Char)
    (h : (mentionOf selfID).isPrefixOf cs) :
    ((cs.drop (mentionOf selfID).length).dropWhile (· = ' ')).length < cs.length := by
  have hpre : mentionOf selfID <+: cs := (List.isPrefixOf_iff_prefix).1 h
  have hle : (mentionOf selfID).length ≤ cs.length := hpre.length_le
  have hpos : 0 < (mentionOf selfID).length := mentionOf_length_pos selfID
  calc ((cs.drop (mentionOf selfID).length).dropWhile (· = ' ')).length
      ≤ (cs.drop (mentionOf selfID).length).length := (List.dropWhile_sublist _).length_le
    _ = cs.length - (mentionOf selfID).length := List.length_drop _ _
    _ < cs.length := Nat.sub_lt (Nat.lt_of_lt_of_le hpos hle) hpos

theorem stripMentionCore_idem (selfID : String) (cs : List Char) :
    stripMentionCore selfID (stripMentionCore selfID cs) = stripMentionCore selfID cs := by
  suffices H : ∀ (n : Nat) (l : List Char), l.length = n →
      stripMentionCore selfID (stripMentionCore selfID l) = stripMentionCore selfID l from
    H cs.length cs rfl
  intro n
  induction n using Nat.strong_induction_on with
  | _ n ih =>
    intro l hlen
    by_cases h : (mentionOf selfID).isPrefixOf l
    · rw [stripMentionCore_eq selfID l, if_pos h]
      exact ih _ (hlen ▸ strip_rest_length_lt selfID l h) _ rfl
    · have hl : stripMentionCore selfID l = l := by
        rw [stripMentionCore_eq selfID l, if_neg h]
      rw [hl]
      exact hl

/-- Modelled from the spec: `StripLinkMarkup()` removes the service's inline
link decoration characters around URLs, leaving bare text. -/
def stripLinkMarkup (text : String) : String :=
  ⟨text.data.filter (fun c => c ≠ '<' && c ≠ '>')⟩

/-- Modelled from the spec: `IsHelpRequest()` is true iff the normalized
text equals the reserved help keyword. -/
def Message.isHelpRequest (m : Message) : Bool :=
  m.text == "help"

/-- A registered command: the literal pattern text, the description used for
help, and the handler.  Handlers are identified by an opaque token (their
business logic is out of scope).  Modelled from the spec: `Command` — fields
`Pattern`, `Description`, `Handler`; immutable after registration. -/
structure Command where
  text : String
  description : String
  handler : Nat
deriving Repr, DecidableEq

/-- Split a character list into blank-separated words, accumulator-style. -/
def splitWordsAux : List Char → List Char → List (List Char)
  | [], acc => [acc.reverse]
  | c :: rest, acc =>
    if c = ' ' then acc.reverse :: splitWordsAux rest []
    else splitWordsAux rest (c :: acc)

/-- Split a string into its blank-separated words. -/
def splitWords (s : String) : List (List Char) :=
  splitWordsAux s.data []

/-- A pattern token of the form `<name>` captures a word of the text. -/
def isCaptureToken (t : List Char) : Bool :=
  t.head? == some '<' && t.getLast? == some '>'

/-- The capture name of a `<name>` token. -/
def captureName (t : List Char) : String :=
  ⟨(t.drop 1).dropLast⟩

/-- Modelled from the spec: the pattern-matching capability
`match(patternSpec, text) → (parameters, matched)`.  A pattern is a
blank-separated token list; a `<name>` token captures the corresponding
word of the text, any other token must equal it literally; the match
succeeds iff the token counts agree and every token matches, yielding the
named captures. -/
def matchTokens : List (List Char) → List (List Char) → Option (List (String × String))
  | [], [] => some []
  | p :: ps, w :: ws =>
    if isCaptureToken p then
      (matchTokens ps ws).map (fun rest => (captureName p, ⟨w⟩) :: rest)
    else if p = w then
      matchTokens ps ws
    else
      none
  | _, _ => none

/-- Modelled from the spec: match a pattern against a message text. -/
def matchPattern (pattern text : String) : Option (List (String × String)) :=
  matchTokens (splitWords pattern) (splitWords text)

/-- The fixed greeting sentence of `Bot.sendHelp` (`main.go` line 143). -/
def helpGreeting : String :=
  "Thanks for asking! I can support you with those features:\n\n"

/-- The bot/session state: session id, optional socket handle, ordered
command list (from `Bot` in `main.go`; the socket is an opaque handle). -/
structure Bot where
  token : String
  id : String
  socket : Option Nat
  commands : List Command
deriving Repr, DecidableEq

/-- An observable effect of processing a message: invoking a command's
handler with a conversation (captured parameters and triggering message),
or sending a frame on the connection. -/
inductive Effect where
  | invoke (handler : Nat) (params : List (String × String)) (msg : Message)
  | send (frame : Message)
deriving Repr, DecidableEq

/-- `Bot.searchCommand` (`main.go` lines 127–138): iterate over the
registered commands in order; for each command whose pattern matches the
message text, invoke its handler with a conversation built from the
match. -/
def searchCommand (commands : List Command) (msg : Message) : List Effect :=
  match commands with
  | [] => []
  | cmd :: rest =>
    match matchPattern cmd.text msg.text with
    | some params => .invoke cmd.handler params msg :: searchCommand rest msg
    | none => searchCommand rest msg

/-- `Bot.Command` (`main.go` lines 214–216): append a new command. -/
def Bot.registerCommand (b : Bot) (cmd : String) (handler : Nat) : Bot :=
  { b with commands := b.commands ++ [{ text := cmd, description := "", handler := handler }] }

/-- The help-accumulation loop of `Bot.sendHelp` (`main.go` lines 145–154):
for each command append its pattern text in backquotes, then the
description after a separator when it is non-empty, then a newline. -/
def helpLoop : List Command → String → String
  | [], help => help
  | cmd :: rest, help =>
    helpLoop rest
      (help ++ "`" ++ cmd.text ++ "`" ++
        (if cmd.description ≠ "" then " *–* " ++ cmd.description else "") ++ "\n")

/-- `Bot.sendHelp` (`main.go` lines 141–162): build the help text from the
registered commands, prefix it with an at-mention of the sender unless the
message is a direct message, and send the triggering message with its text
replaced by the help text. -/
def sendHelpMsg (b : Bot) (msg : Message) : Message :=
  let help := helpLoop b.commands helpGreeting
  let help := if msg.isDirectMessage then help else "<@" ++ msg.user ++ ">: " ++ help
  { msg with text := help }

/-- `Bot.process` (`main.go` lines 107–124): drop the message unless it is
relevant for this session; otherwise strip the mention and the link markup
and either answer the help request or run command dispatch. -/
def process (b : Bot) (message : Message) : List Effect :=
  if message.isRelevantFor b.id then
    let m1 := { message with text := stripMention b.id message.text }
    let m2 := { m1 with text := stripLinkMarkup m1.text }
    if m2.isHelpRequest then [.send (sendHelpMsg b m2)]
    else searchCommand b.commands m2
  else []

/-- One help line, as the spec describes it: the pattern text quoted,
the description after a separator only when non-empty, then a newline. -/
def helpLine (cmd : Command) : String :=
  "`" ++ cmd.text ++ "`" ++
    (if cmd.description ≠ "" then " *–* " ++ cmd.description else "") ++ "\n"

/-- The concatenation of all help lines in registration order. -/
def helpLines : List Command → String
  | [] => ""
  | cmd :: rest => helpLine cmd ++ helpLines rest

theorem string_append_assoc (a b c : String) : a ++ b ++ c = a ++ (b ++ c) := by
  apply String.ext
  simp [String.data_append, List.append_assoc]

theorem string_append_empty (a : String) : a ++ "" = a := by
  apply String.ext
  simp [String.data_append]

theorem helpLoop_eq (cmds : List Command) :
    ∀ acc : String, helpLoop cmds acc = acc ++ helpLines cmds := by
  induction cmds with
  | nil => intro acc; simp [helpLoop, helpLines, string_append_empty]
  | cons cmd rest ih =>
    intro acc
    simp only [helpLoop, helpLines, ih, helpLine, string_append_assoc]

/-- The structured session-start response (`handshakeResponse` in `main.go`):
success flag, error string, streaming URL, and the session's own identity. -/
structure HandshakeResponse where
  ok : Bool
  error : String
  url : String
  selfID : String
deriving Repr, DecidableEq

/-- Outcome of reading and parsing the HTTP response body
(`ioutil.ReadAll` and `json.Unmarshal` in `Bot.Handshake`). -/
inductive BodyOutcome where
  | readFailed
  | unparsable (raw : String)
  | parsed (r : HandshakeResponse)
deriving Repr, DecidableEq

/-- Outcome of the HTTP call (`client.Get` in `Bot.Handshake`): a
network-level failure, or a response with a status code and a body. -/
inductive HttpOutcome where
  | connectFailed
  | httpResponse (statusCode : Nat) (body : BodyOutcome)
deriving Repr, DecidableEq

/-- Outcome of the streaming upgrade (`websocket.NewConfig` and
`websocket.DialConfig` in `Bot.Handshake`). -/
inductive DialOutcome where
  | configFailed
  | dialFailed
  | ok (socket : Nat)
deriving Repr, DecidableEq

/-- The typed failure modes of `Bot.Handshake`, one per distinct error
return in `main.go` lines 60–101. -/
inductive HandshakeError where
  | connectFailed
  | unexpectedStatus (code : Nat)
  | readFailed
  | malformed (raw : String)
  | sessionRejected (reason : String)
  | configFailed
  | upgradeFailed
deriving Repr, DecidableEq

/-- Result of `Bot.Handshake`: the receiver's final state (the method
mutates `b.ID` and `b.Socket` in place), the returned pointer/error pair
(`returned = none` models the nil pointer), and whether the streaming dial
was attempted. -/
structure HandshakeResult where
  finalSelf : Bot
  returned : Option Bot
  err : Option HandshakeError
  dialAttempted : Bool
deriving Repr, DecidableEq

/-- `Bot.Handshake` (`main.go` lines 45–104) over explicit outcomes of its
two effectful collaborators (the HTTP call and the streaming dial): check
the HTTP error, the status code, body read, JSON parse, then the success
flag; assign the session identity to the receiver; then attempt the
streaming upgrade and return the ready bot or the typed error. -/
def handshake (b : Bot) (http : HttpOutcome) (dial : DialOutcome) : HandshakeResult :=
  match http with
  | .connectFailed => ⟨b, none, some .connectFailed, false⟩
  | .httpResponse code body =>
    if code ≠ 200 then ⟨b, none, some (.unexpectedStatus code), false⟩
    else
      match body with
      | .readFailed => ⟨b, none, some .readFailed, false⟩
      | .unparsable raw => ⟨b, none, some (.malformed raw), false⟩
      | .parsed r =>
        if !r.ok then ⟨b, none, some (.sessionRejected r.error), false⟩
        else
          let b1 := { b with id := r.selfID }
          match dial with
          | .configFailed => ⟨b1, none, some .configFailed, false⟩
          | .dialFailed => ⟨{ b1 with socket := none }, none, some .upgradeFailed, true⟩
          | .ok s => ⟨{ b1 with socket := some s }, some { b1 with socket := some s }, none, true⟩

end Hanu

namespace Hanu

/-- A concrete bot with the single registered pattern `"hello"`. -/
def helloBot : Bot :=
  (Bot.mk "tok" "U1" (some 0) []).registerCommand "hello" 7

/-- A concrete content message with the given text in a public channel. -/
def msgWith (text : String) : Message :=
  { id := 1, type := "message", text := text, channel := "C42", user := "U9" }

/-- A bot with the overlapping patterns of the spec's example. -/
def deployBot : Bot :=
  ((Bot.mk "tok" "U1" (some 0) []).registerCommand "deploy <env>" 1).registerCommand "deploy production" 2

/-- An observable action of the keepalive goroutine of `Bot.Listen`
(`main.go` lines 169–191): sleeping, sending a ping frame with its
correlation id, closing the socket, and waiting (up to a timeout) for the
acknowledgment signal, recording whether it arrived. -/
inductive KAction where
  | sleep (secs : Nat)
  | sendPing (id : Nat)
  | closeSocket
  | waitAck (timeoutSecs : Nat) (received : Bool)
deriving Repr, DecidableEq

/-- The environment of one keepalive iteration: whether the ping send
succeeds, and whether the acknowledgment arrives before the timeout. -/
structure KeepAliveEnv where
  sendOk : Bool
  ackArrives : Bool
deriving Repr, DecidableEq

/-- The keepalive loop of `Bot.Listen` (`main.go` lines 171–190), run over
a finite environment script, one entry per iteration: increment the
counter, send the ping (closing the socket when the send fails), then
select on the pong channel against a one-minute timer — on a pong sleep a
minute and loop, on timeout close the socket and return.  Yields the
action trace and whether the goroutine returned within the script. -/
def kaRun : Nat → List KeepAliveEnv → List KAction × Bool
  | _, [] => ([], false)
  | count, e :: rest =>
    let c := count + 1
    let sendActs := KAction.sendPing c :: (if e.sendOk then [] else [KAction.closeSocket])
    if e.ackArrives then
      let next := kaRun c rest
      (sendActs ++ KAction.waitAck 60 true :: KAction.sleep 60 :: next.1, next.2)
    else
      (sendActs ++ [KAction.waitAck 60 false, KAction.closeSocket], true)

/-- The whole keepalive goroutine: the initial five-second sleep
(`main.go` line 170), then the loop with the counter starting at 100. -/
def keepaliveMonitor (envs : List KeepAliveEnv) : List KAction × Bool :=
  (KAction.sleep 5 :: (kaRun 100 envs).1, (kaRun 100 envs).2)

/-- The correlation ids of the ping frames sent in a trace, in order. -/
def pingIds (acts : List KAction) : List Nat :=
  acts.filterMap fun a =>
    match a with
    | .sendPing i => some i
    | _ => none

/-- One event seen by the receive loop of `Bot.Listen` (`main.go` lines
193–210): a successfully received frame (together with whether the
keepalive monitor is currently in its select, i.e. whether the
non-blocking send on the pong channel would be taken), or a failed read
with its error. -/
inductive ListenEvent where
  | recv (m : Message) (monitorWaiting : Bool)
  | recvError (e : String)
deriving Repr, DecidableEq

/-- An observable action of the receive loop: the pong signal delivered to
the monitor, the pong signal dropped by the select's default branch, or a
message handed to concurrent dispatch (carrying the fresh value passed to
`go b.process(msg)`). -/
inductive LAction where
  | pongDelivered
  | pongDropped
  | dispatch (m : Message)
deriving Repr, DecidableEq

/-- The receive loop of `Bot.Listen` (`main.go` lines 193–210) over a
finite event script: on a read error return it; on a frame of type
`"pong"` do the non-blocking channel send (delivered or dropped); on any
other frame hand the message to concurrent dispatch; then continue with
the next receive. -/
def listenLoop : List ListenEvent → List LAction × Option String
  | [] => ([], none)
  | .recvError e :: _ => ([], some e)
  | .recv m w :: rest =>
    let act :=
      if m.type = "pong" then (if w then LAction.pongDelivered else LAction.pongDropped)
      else LAction.dispatch m
    let next := listenLoop rest
    (act :: next.1, next.2)

/-- Whether a listen event is a successful read. -/
def isRecvEvent : ListenEvent → Bool
  | .recv _ _ => true
  | .recvError _ => false

/-- The action produced for a successfully received frame. -/
def classifyEvent : ListenEvent → Option LAction
  | .recv m w =>
    some (if m.type = "pong" then (if w then LAction.pongDelivered else LAction.pongDropped)
      else LAction.dispatch m)
  | .recvError _ => none

/-- The error carried by a failed read. -/
def errorOfEvent : ListenEvent → Option String
  | .recv _ _ => none
  | .recvError e => some e

/-- A concrete direct message (channel in the `'D'` namespace). -/
def dmMsg : Message :=
  { id := 2, type := "message", text := "help", channel := "D77", user := "U9" }

/-- A concrete command with a non-empty description. -/
def shipCmd : Command :=
  { text := "ship it", description := "ships the thing", handler := 3 }

/-- A concrete heartbeat-acknowledgment frame. -/
def pongFrame : Message :=
  { id := 5, type := "pong", text := "", channel := "", user := "" }

/-- A keepalive script whose first iteration has a failed ping send and a
delivered acknowledgment, followed by an acknowledgment timeout. -/
def failThenTimeoutEnvs : List KeepAliveEnv :=
  [⟨false, true⟩, ⟨true, false⟩]

/-- The number of loop iterations the keepalive goroutine runs on a script:
it stops at the first iteration whose acknowledgment wait times out. -/
def kaIterCount : List KeepAliveEnv → Nat
  | [] => 0
  | e :: rest => if e.ackArrives then kaIterCount rest + 1 else 1

theorem kaRun_pingIds :
    ∀ (envs : List KeepAliveEnv) (count : Nat),
      pingIds (kaRun count envs).1 = List.range' (count + 1) (kaIterCount envs) := by
  intro envs
  induction envs with
  | nil => intro count; simp [kaRun, pingIds, kaIterCount]
  | cons e rest ih =>
    intro count
    cases hs : e.sendOk <;> cases ha : e.ackArrives <;>
      simp [kaRun, hs, ha, pingIds, kaIterCount, List.filterMap_append, List.range'] <;>
      simpa [pingIds] using ih (count + 1)

theorem kaRun_pingIds_gt (envs : List KeepAliveEnv) (count i : Nat)
    (h : i ∈ pingIds (kaRun count envs).1) : count < i := by
  rw [kaRun_pingIds] at h
  have := (List.mem_range'_1).1 h
  omega

theorem kaRun_pingIds_chain (envs : List KeepAliveEnv) (count : Nat) :
    List.Chain' (· < ·) (pingIds (kaRun count envs).1) := by
  rw [kaRun_pingIds]
  exact (List.pairwise_lt_range' _ _).chain'

end Hanu

namespace Hanu

/-- C1: `Dispatch` evaluates every registered pattern against the text in
registration order and invokes the handler of every matching command
(any-match): the invocation list is exactly the in-order `filterMap` of the
match results; with the single pattern `"hello"`, text `"hello"` yields
exactly one invocation of its handler and `"goodbye"` yields none; with the
overlapping patterns `"deploy <env>"` and `"deploy production"`, text
`"deploy production"` invokes both handlers once each. -/
theorem dispatch_any_match_in_order :
    (∀ (commands : List Command) (msg : Message),
      searchCommand commands msg =
        commands.filterMap (fun cmd =>
          (matchPattern cmd.text msg.text).map
            (fun params => Effect.invoke cmd.handler params msg)))
    ∧ searchCommand helloBot.commands (msgWith "hello") =
        [Effect.invoke 7 [] (msgWith "hello")]
    ∧ searchCommand helloBot.commands (msgWith "goodbye") = []
    ∧ searchCommand deployBot.commands (msgWith "deploy production") =
        [Effect.invoke 1 [("env", "production")] (msgWith "deploy production"),
         Effect.invoke 2 [] (msgWith "deploy production")] := by
  refine ⟨?_, by decide, by decide, by decide⟩
  intro commands msg
  induction commands with
  | nil => rfl
  | cons cmd rest ih =>
    simp only [searchCommand, List.filterMap_cons]
    cases matchPattern cmd.text msg.text with
    | none => simpa using ih
    | some params => simpa using ih

/-- C2: a message for which `IsRelevantFor(selfID)` is false is processed
with no observable effect: no handler invocation, no help reply, nothing
written to the connection. -/
theorem irrelevant_message_no_effect (b : Bot) (msg : Message)
    (h : msg.isRelevantFor b.id = false) : process b msg = [] := by
  simp [process, h]

theorem irrelevant_message_no_effect_witness :
    (msgWith "goodbye").isRelevantFor helloBot.id = false ∧
      process helloBot (msgWith "goodbye") = [] :=
  ⟨by decide, irrelevant_message_no_effect helloBot (msgWith "goodbye") (by decide)⟩

/-- C7: the help response is the fixed greeting followed by one line per
registered command in registration order — the pattern text quoted, then
the description only when non-empty — and the whole block is prefixed with
an at-mention of the requesting user exactly when the triggering message is
not a direct message. -/
theorem help_format :
    (∀ cmds : List Command, helpLoop cmds helpGreeting = helpGreeting ++ helpLines cmds)
    ∧ (∀ cmd : Command, cmd.description ≠ "" →
        helpLine cmd = "`" ++ cmd.text ++ "`" ++ " *–* " ++ cmd.description ++ "\n")
    ∧ (∀ cmd : Command, cmd.description = "" →
        helpLine cmd = "`" ++ cmd.text ++ "`" ++ "\n")
    ∧ (∀ (b : Bot) (msg : Message), msg.isDirectMessage = true →
        (sendHelpMsg b msg).text = helpGreeting ++ helpLines b.commands)
    ∧ (∀ (b : Bot) (msg : Message), msg.isDirectMessage = false →
        (sendHelpMsg b msg).text =
          "<@" ++ msg.user ++ ">: " ++ (helpGreeting ++ helpLines b.commands)) := by
  refine ⟨fun cmds => helpLoop_eq cmds helpGreeting, ?_, ?_, ?_, ?_⟩
  · intro cmd h
    apply String.ext
    simp [helpLine, h, String.data_append, List.append_assoc]
  · intro cmd h
    apply String.ext
    simp [helpLine, h, String.data_append, List.append_assoc]
  · intro b msg h
    simp [sendHelpMsg, h, helpLoop_eq]
  · intro b msg h
    simp [sendHelpMsg, h, helpLoop_eq]

theorem help_format_witness :
    shipCmd.description ≠ ""
    ∧ helpLine shipCmd = "`" ++ shipCmd.text ++ "`" ++ " *–* " ++ shipCmd.description ++ "\n"
    ∧ dmMsg.isDirectMessage = true
    ∧ (sendHelpMsg helloBot dmMsg).text = helpGreeting ++ helpLines helloBot.commands
    ∧ (msgWith "help").isDirectMessage = false
    ∧ (sendHelpMsg helloBot (msgWith "help")).text =
        "<@" ++ (msgWith "help").user ++ ">: " ++ (helpGreeting ++ helpLines helloBot.commands) :=
  ⟨by decide, help_format.2.1 shipCmd (by decide),
   by decide, help_format.2.2.2.1 helloBot dmMsg (by decide),
   by decide, help_format.2.2.2.2 helloBot (msgWith "help") (by decide)⟩

/-- C9: the help reply is the triggering message itself with only its text
replaced: the sent frame carries the triggering message's `ID`, `Type`,
`Channel` and `User` unchanged. -/
theorem help_reply_preserves_frame_fields (b : Bot) (msg : Message) :
    (sendHelpMsg b msg).id = msg.id ∧ (sendHelpMsg b msg).type = msg.type ∧
      (sendHelpMsg b msg).channel = msg.channel ∧ (sendHelpMsg b msg).user = msg.user :=
  ⟨rfl, rfl, rfl, rfl⟩

/-- C8: `StripMention(selfID)` is idempotent — applying it twice yields the
same text as applying it once — and it is a no-op when the text does not
start with a mention token referencing `selfID`. -/
theorem stripMention_idempotent :
    (∀ (selfID text : String),
      stripMention selfID (stripMention selfID text) = stripMention selfID text)
    ∧ (∀ (selfID text : String), (mentionOf selfID).isPrefixOf text.data = false →
        stripMention selfID text = text) := by
  constructor
  · intro selfID text
    simp only [stripMention]
    exact congrArg String.mk (stripMentionCore_idem selfID text.data)
  · intro selfID text h
    apply String.ext
    simp only [stripMention]
    rw [stripMentionCore_eq, if_neg (by simp [h])]

theorem stripMention_idempotent_witness :
    stripMention "U1" (stripMention "U1" "<@U1> <@U1> deploy it") =
      stripMention "U1" "<@U1> <@U1> deploy it"
    ∧ stripMention "U1" "<@U1> <@U1> deploy it" = "deploy it"
    ∧ (mentionOf "U1").isPrefixOf ("hi there").data = false
    ∧ stripMention "U1" "hi there" = "hi there" :=
  ⟨stripMention_idempotent.1 "U1" "<@U1> <@U1> deploy it",
   by simp +decide [stripMention, stripMentionCore_eq, mentionOf], by decide,
   stripMention_idempotent.2 "U1" "hi there" (by decide)⟩

/-- C3: `Handshake` distinguishes its failure modes — HTTP-level failure,
non-200 status carrying the literal code, body-read failure, parse failure,
a 200 response with a false success flag (carrying the service-provided
error string, with no streaming dial attempted), and streaming-upgrade
failure — and a bot is returned exactly on full success, fully initialized
(identity assigned from the response and socket set); on every failure the
returned pointer is nil. -/
theorem handshake_error_taxonomy :
    (∀ (b : Bot) (dial : DialOutcome),
      handshake b .connectFailed dial = ⟨b, none, some .connectFailed, false⟩)
    ∧ (∀ (b : Bot) (code : Nat) (body : BodyOutcome) (dial : DialOutcome), code ≠ 200 →
      handshake b (.httpResponse code body) dial = ⟨b, none, some (.unexpectedStatus code), false⟩)
    ∧ (∀ (b : Bot) (dial : DialOutcome),
      handshake b (.httpResponse 200 .readFailed) dial = ⟨b, none, some .readFailed, false⟩)
    ∧ (∀ (b : Bot) (raw : String) (dial : DialOutcome),
      handshake b (.httpResponse 200 (.unparsable raw)) dial = ⟨b, none, some (.malformed raw), false⟩)
    ∧ (∀ (b : Bot) (r : HandshakeResponse) (dial : DialOutcome), r.ok = false →
      handshake b (.httpResponse 200 (.parsed r)) dial =
        ⟨b, none, some (.sessionRejected r.error), false⟩)
    ∧ (∀ (b : Bot) (r : HandshakeResponse), r.ok = true →
      (handshake b (.httpResponse 200 (.parsed r)) .dialFailed).err = some .upgradeFailed)
    ∧ (∀ (b bot : Bot) (http : HttpOutcome) (dial : DialOutcome),
      (handshake b http dial).returned = some bot →
        (handshake b http dial).err = none ∧ bot.socket.isSome = true ∧
          ∃ (r : HandshakeResponse) (s : Nat),
            http = .httpResponse 200 (.parsed r) ∧ r.ok = true ∧ dial = .ok s ∧
              bot = { b with id := r.selfID, socket := some s }) := by
  refine ⟨fun b dial => rfl, ?_, fun b dial => rfl, fun b raw dial => rfl, ?_, ?_, ?_⟩
  · intro b code body dial h
    simp [handshake, h]
  · intro b r dial h
    simp [handshake, h]
  · intro b r h
    simp [handshake, h]
  · intro b bot http dial h
    cases http with
    | connectFailed => simp [handshake] at h
    | httpResponse code body =>
      by_cases hc : code = 200
      · subst hc
        cases body with
        | readFailed => simp [handshake] at h
        | unparsable raw => simp [handshake] at h
        | parsed r =>
          cases hok : r.ok with
          | false => simp [handshake, hok] at h
          | true =>
            cases dial with
            | configFailed => simp [handshake, hok] at h
            | dialFailed => simp [handshake, hok] at h
            | ok s =>
              simp only [handshake, hok, Bool.not_true, Bool.false_eq_true, if_false,
                if_neg (by simp : ¬(200 ≠ 200)), Option.some.injEq] at h
              subst h
              exact ⟨by simp [handshake, hok], rfl, r, s, rfl, hok, rfl, rfl⟩
      · simp [handshake, hc] at h

theorem handshake_error_taxonomy_witness :
    (404 ≠ 200)
    ∧ handshake (Bot.mk "tok" "" none []) (.httpResponse 404 .readFailed) (.ok 5) =
        ⟨Bot.mk "tok" "" none [], none, some (.unexpectedStatus 404), false⟩
    ∧ (HandshakeResponse.mk false "invalid_auth" "wss://x" "U1").ok = false
    ∧ handshake (Bot.mk "tok" "" none [])
        (.httpResponse 200 (.parsed (HandshakeResponse.mk false "invalid_auth" "wss://x" "U1")))
        (.ok 5) =
        ⟨Bot.mk "tok" "" none [], none, some (.sessionRejected "invalid_auth"), false⟩
    ∧ (handshake (Bot.mk "tok" "" none [])
        (.httpResponse 200 (.parsed (HandshakeResponse.mk true "" "wss://x" "U1")))
        (.ok 5)).returned =
        some (Bot.mk "tok" "U1" (some 5) [])
    ∧ (handshake (Bot.mk "tok" "" none [])
        (.httpResponse 200 (.parsed (HandshakeResponse.mk true "" "wss://x" "U1")))
        (.ok 5)).err = none :=
  ⟨by decide,
   handshake_error_taxonomy.2.1 (Bot.mk "tok" "" none []) 404 .readFailed (.ok 5) (by decide),
   by decide,
   handshake_error_taxonomy.2.2.2.2.1 (Bot.mk "tok" "" none [])
     (HandshakeResponse.mk false "invalid_auth" "wss://x" "U1") (.ok 5) (by decide),
   by decide,
   (handshake_error_taxonomy.2.2.2.2.2.2 (Bot.mk "tok" "" none [])
     (Bot.mk "tok" "U1" (some 5) [])
     (.httpResponse 200 (.parsed (HandshakeResponse.mk true "" "wss://x" "U1")))
     (.ok 5) (by decide)).1⟩

/-- C10: when session negotiation succeeds but the streaming upgrade fails,
`Handshake` returns a nil bot pointer and an error while the receiver's
`ID` field keeps the session identity assigned from the response — the
receiver's state is not rolled back on the upgrade-failure path. -/
theorem handshake_upgrade_failure_keeps_id (b : Bot) (r : HandshakeResponse)
    (h : r.ok = true) :
    (handshake b (.httpResponse 200 (.parsed r)) .dialFailed).returned = none
    ∧ (handshake b (.httpResponse 200 (.parsed r)) .dialFailed).err = some .upgradeFailed
    ∧ (handshake b (.httpResponse 200 (.parsed r)) .dialFailed).finalSelf.id = r.selfID := by
  simp [handshake, h]

theorem handshake_upgrade_failure_keeps_id_witness :
    (HandshakeResponse.mk true "" "wss://x" "U1").ok = true
    ∧ (handshake (Bot.mk "tok" "" none [])
        (.httpResponse 200 (.parsed (HandshakeResponse.mk true "" "wss://x" "U1")))
        .dialFailed).returned = none
    ∧ (handshake (Bot.mk "tok" "" none [])
        (.httpResponse 200 (.parsed (HandshakeResponse.mk true "" "wss://x" "U1")))
        .dialFailed).err = some .upgradeFailed
    ∧ (handshake (Bot.mk "tok" "" none [])
        (.httpResponse 200 (.parsed (HandshakeResponse.mk true "" "wss://x" "U1")))
        .dialFailed).finalSelf.id = "U1" :=
  ⟨by decide,
   handshake_upgrade_failure_keeps_id (Bot.mk "tok" "" none [])
     (HandshakeResponse.mk true "" "wss://x" "U1") (by decide)⟩

/-- C5: the keepalive monitor sleeps 5s before the first heartbeat; every
heartbeat is a ping whose correlation id exceeds 100; successive ids
strictly increase; each heartbeat is followed by a wait of up to 60s for
the acknowledgment; on an acknowledgment the monitor sleeps 60s and sends
the next heartbeat with the incremented id; on a timeout it closes the
connection and terminates without retrying. -/
theorem keepalive_schedule :
    (∀ envs : List KeepAliveEnv,
      (keepaliveMonitor envs).1.head? = some (KAction.sleep 5))
    ∧ (∀ (envs : List KeepAliveEnv) (i : Nat),
        i ∈ pingIds (keepaliveMonitor envs).1 → 100 < i)
    ∧ (∀ envs : List KeepAliveEnv,
        List.Chain' (· < ·) (pingIds (keepaliveMonitor envs).1))
    ∧ (∀ (count : Nat) (e : KeepAliveEnv) (rest : List KeepAliveEnv),
        e.sendOk = true → e.ackArrives = true →
          kaRun count (e :: rest) =
            (KAction.sendPing (count + 1) :: KAction.waitAck 60 true :: KAction.sleep 60 ::
              (kaRun (count + 1) rest).1, (kaRun (count + 1) rest).2))
    ∧ (∀ (count : Nat) (e : KeepAliveEnv) (rest : List KeepAliveEnv),
        e.sendOk = true → e.ackArrives = false →
          kaRun count (e :: rest) =
            ([KAction.sendPing (count + 1), KAction.waitAck 60 false, KAction.closeSocket],
              true)) := by
  refine ⟨fun envs => rfl, ?_, ?_, ?_, ?_⟩
  · intro envs i h
    exact kaRun_pingIds_gt envs 100 i (by simpa [keepaliveMonitor, pingIds] using h)
  · intro envs
    have := kaRun_pingIds_chain envs 100
    simpa [keepaliveMonitor, pingIds] using this
  · intro count e rest hs ha
    simp [kaRun, hs, ha]
  · intro count e rest hs ha
    simp [kaRun, hs, ha]

theorem keepalive_schedule_witness :
    (KeepAliveEnv.mk true true).sendOk = true
    ∧ (KeepAliveEnv.mk true true).ackArrives = true
    ∧ kaRun 100 [KeepAliveEnv.mk true true, KeepAliveEnv.mk true false] =
        (KAction.sendPing 101 :: KAction.waitAck 60 true :: KAction.sleep 60 ::
          (kaRun 101 [KeepAliveEnv.mk true false]).1, (kaRun 101 [KeepAliveEnv.mk true false]).2)
    ∧ kaRun 101 [KeepAliveEnv.mk true false] =
        ([KAction.sendPing 102, KAction.waitAck 60 false, KAction.closeSocket], true)
    ∧ 101 ∈ pingIds (keepaliveMonitor [KeepAliveEnv.mk true true, KeepAliveEnv.mk true false]).1
    ∧ 100 < 101 :=
  ⟨rfl, rfl,
   keepalive_schedule.2.2.2.1 100 (KeepAliveEnv.mk true true) [KeepAliveEnv.mk true false]
     rfl rfl,
   keepalive_schedule.2.2.2.2 101 (KeepAliveEnv.mk true false) [] rfl rfl,
   by decide,
   keepalive_schedule.2.1 [KeepAliveEnv.mk true true, KeepAliveEnv.mk true false] 101
     (by decide)⟩

/-- C4 counterexample: on the script whose first iteration has a failed
ping send and a delivered acknowledgment, the monitor closes the socket
after the failed send but then still enters the acknowledgment wait,
sleeps, and sends a second heartbeat — and on a script consisting only of
the failed-send iteration the goroutine has not returned.  So the claim
that a failed heartbeat send terminates the monitor (no further
heartbeat/acknowledgment cycle) is false. -/
theorem keepalive_send_failure_counterexample :
    (keepaliveMonitor failThenTimeoutEnvs).1 =
      [KAction.sleep 5, KAction.sendPing 101, KAction.closeSocket, KAction.waitAck 60 true,
       KAction.sleep 60, KAction.sendPing 102, KAction.waitAck 60 false, KAction.closeSocket]
    ∧ (keepaliveMonitor [KeepAliveEnv.mk false true]).2 = false
    ∧ ¬ (∀ envs : List KeepAliveEnv,
          envs.head?.map KeepAliveEnv.sendOk = some false →
            (pingIds (keepaliveMonitor envs).1).length ≤ 1) :=
  ⟨by decide, by decide,
   fun hclaim => absurd (hclaim failThenTimeoutEnvs (by decide)) (by decide)⟩

/-- C4 (amended): if sending a heartbeat frame fails, the connection is
closed, but the monitor does not terminate at that point: it still enters
the 60s acknowledgment wait of the same iteration; if an acknowledgment
arrives it sleeps and continues with the next heartbeat, and it terminates
only through the acknowledgment-timeout path, closing the connection
there. -/
theorem keepalive_send_failure_closes_and_continues
    (count : Nat) (e : KeepAliveEnv) (rest : List KeepAliveEnv) (h : e.sendOk = false) :
    ((kaRun count (e :: rest)).1.take 3 =
      [KAction.sendPing (count + 1), KAction.closeSocket, KAction.waitAck 60 e.ackArrives])
    ∧ (e.ackArrives = true → kaRun count (e :: rest) =
        (KAction.sendPing (count + 1) :: KAction.closeSocket :: KAction.waitAck 60 true ::
          KAction.sleep 60 :: (kaRun (count + 1) rest).1, (kaRun (count + 1) rest).2))
    ∧ (e.ackArrives = false → kaRun count (e :: rest) =
        ([KAction.sendPing (count + 1), KAction.closeSocket, KAction.waitAck 60 false,
          KAction.closeSocket], true)) := by
  cases ha : e.ackArrives <;>
    refine ⟨by simp [kaRun, h, ha], ?_, ?_⟩ <;> intro hcontra <;>
    simp_all [kaRun, h]

theorem keepalive_send_failure_closes_and_continues_witness :
    (KeepAliveEnv.mk false true).sendOk = false
    ∧ (KeepAliveEnv.mk false true).ackArrives = true
    ∧ kaRun 100 failThenTimeoutEnvs =
        (KAction.sendPing 101 :: KAction.closeSocket :: KAction.waitAck 60 true ::
          KAction.sleep 60 :: (kaRun 101 [KeepAliveEnv.mk true false]).1,
          (kaRun 101 [KeepAliveEnv.mk true false]).2) :=
  ⟨rfl, rfl,
   (keepalive_send_failure_closes_and_continues 100 (KeepAliveEnv.mk false true)
     [KeepAliveEnv.mk true false] rfl).2.1 rfl⟩

/-- C6: the receive loop classifies every inbound frame by type — the
action trace is the in-order classification of the frames read before the
first failed read, and the loop's return value is that read's error; a
`"pong"` frame is handed to the monitor via the non-blocking handoff
(delivered when the monitor is waiting, dropped otherwise) and is never
dispatched as content; every other frame is handed to concurrent dispatch
carrying the received message value, and the loop goes on to the next
receive. -/
theorem receive_loop_classification :
    (∀ evs : List ListenEvent,
      listenLoop evs =
        ((evs.takeWhile isRecvEvent).filterMap classifyEvent,
          ((evs.dropWhile isRecvEvent).head?).bind errorOfEvent))
    ∧ (∀ (evs : List ListenEvent) (m : Message),
        LAction.dispatch m ∈ (listenLoop evs).1 → m.type ≠ "pong")
    ∧ (∀ (m : Message) (w : Bool) (rest : List ListenEvent), m.type = "pong" →
        listenLoop (.recv m w :: rest) =
          ((if w then LAction.pongDelivered else LAction.pongDropped) :: (listenLoop rest).1,
            (listenLoop rest).2))
    ∧ (∀ (m : Message) (w : Bool) (rest : List ListenEvent), m.type ≠ "pong" →
        listenLoop (.recv m w :: rest) =
          (LAction.dispatch m :: (listenLoop rest).1, (listenLoop rest).2))
    ∧ (∀ (e : String) (rest : List ListenEvent),
        listenLoop (.recvError e :: rest) = ([], some e)) := by
  refine ⟨?_, ?_, ?_, ?_, fun e rest => rfl⟩
  · intro evs
    induction evs with
    | nil => rfl
    | cons ev rest ih =>
      cases ev with
      | recvError e => simp [listenLoop, isRecvEvent, errorOfEvent]
      | recv m w =>
        simp [listenLoop, isRecvEvent, classifyEvent, ih]
  · intro evs m
    induction evs with
    | nil => intro h; simp [listenLoop] at h
    | cons ev rest ih =>
      intro h
      cases ev with
      | recvError e => simp [listenLoop] at h
      | recv m' w =>
        by_cases hp : m'.type = "pong"
        · cases w <;> simp [listenLoop, hp] at h <;> exact ih h
        · simp [listenLoop, hp] at h
          rcases h with h | h
          · subst h; exact hp
          · exact ih h
  · intro m w rest h
    simp [listenLoop, h]
  · intro m w rest h
    simp [listenLoop, h]

theorem receive_loop_classification_witness :
    pongFrame.type = "pong"
    ∧ listenLoop [ListenEvent.recv pongFrame true, ListenEvent.recvError "EOF"] =
        ((if true then LAction.pongDelivered else LAction.pongDropped) ::
          (listenLoop [ListenEvent.recvError "EOF"]).1,
          (listenLoop [ListenEvent.recvError "EOF"]).2)
    ∧ (msgWith "hi").type ≠ "pong"
    ∧ listenLoop [ListenEvent.recv (msgWith "hi") false] =
        (LAction.dispatch (msgWith "hi") :: (listenLoop ([] : List ListenEvent)).1,
          (listenLoop ([] : List ListenEvent)).2)
    ∧ listenLoop [ListenEvent.recvError "EOF"] = ([], some "EOF") :=
  ⟨rfl,
   receive_loop_classification.2.2.1 pongFrame true [ListenEvent.recvError "EOF"] rfl,
   receive_loop_classification.2.1 [ListenEvent.recv (msgWith "hi") false] (msgWith "hi")
     (by decide),
   receive_loop_classification.2.2.2.1 (msgWith "hi") false [] (by decide),
   receive_loop_classification.2.2.2.2 "EOF" []⟩

end Hanu
